import Mathlib

/-!
# Verification of the pysyndna calibration-and-projection pipeline

Shallow embedding of `pysyndna/src/quant_orfs.py` (the OGU+ORF ssRNA
projection path) and, where the deciding code lives in modules of this
repository that are not present under `src/` (`util.py`,
`fit_syndna_models.py`), models written from the specification, each
marked `Modelled from the spec:` in its doc comment.

Numeric values are embedded as rationals (`ℚ`): the source computes with
IEEE doubles, and the properties checked here are exact algebraic
identities of the multiplicative chain, for which exact arithmetic is the
intended semantics.  A missing numeric cell (`NaN` in pandas) is embedded
as `Option.none`; samples carrying such cells are removed by the sample
filter before any arithmetic touches them, so the arithmetic layer reads
values with `Option.getD 0`, a branch that is unreachable on the filtered
data.
-/

namespace PySyndna

/-- One row of the per-sample quantitation-parameters table
(`quant_params_per_sample_df`).  Fields correspond to the columns
`sample_name`, `calc_mass_sample_aliquot_input_g`,
`total_rna_concentration_ng_ul`, `vol_extracted_elution_ul`, and
`total_biological_reads_r1r2`; `none` embeds a missing (NaN) value. -/
structure ParamRow where
  sid : String
  aliquotMassG : Option ℚ
  concNgUl : Option ℚ
  eluteVolUl : Option ℚ
  totalReads : Option ℚ
  deriving DecidableEq, Repr

/-- A pandas DataFrame of `ParamRow`s together with its index labels.
The index is carried explicitly because `quant_orfs.py` assigns
`df.index = df[SAMPLE_ID_KEY]`, an in-place mutation observable by the
caller of the function that performs it. -/
structure ParamsDf where
  rows : List ParamRow
  index : List String
  deriving DecidableEq, Repr

/-- Label lookup of a row by sample id (pandas `df.at[id_, col]` after the
index has been set to the sample-id column; first matching row). -/
def findRow (df : ParamsDf) (s : String) : Option ParamRow :=
  df.rows.find? (fun r => r.sid == s)

/-- `df.at[id_, TOTAL_BIOLOGICAL_READS_KEY]`: `none` iff the label is
absent (pandas raises `KeyError`); a present-but-missing value reads 0
(unreachable after filtering, see module comment). -/
def atTotalReads (df : ParamsDf) (s : String) : Option ℚ :=
  (findRow df s).map (fun r => r.totalReads.getD 0)

/-- `df.at[id_, SAMPLE_IN_ALIQUOT_MASS_G_KEY]`. -/
def atAliquotMassG (df : ParamsDf) (s : String) : Option ℚ :=
  (findRow df s).map (fun r => r.aliquotMassG.getD 0)

/-- Modelled from the spec: `calc_gs_genomic_element_in_aliquot`
(`util.py`, not under `src/`).  Section 4.1 of the spec gives
`mass_of_analyte_in_aliquot(concentration, volume)` = concentration ×
volume, unit-consistent; the unit-conversion constant is taken as 1,
consistent with the round-trip property of section 8 (all-ones metadata
collapses the chain to the identity). -/
def ssrnaFromAliquotMassG (r : ParamRow) : ℚ :=
  r.concNgUl.getD 0 * r.eluteVolUl.getD 0

/-- Lookup of the per-sample total ssRNA mass in the elute, i.e.
`g_total_ssrna_per_sample_df.at[id_, SSRNA_FROM_ALIQUOT_MASS_G_KEY]`. -/
def atSsrnaMassG (df : ParamsDf) (s : String) : Option ℚ :=
  (findRow df s).map ssrnaFromAliquotMassG

/-- A `biom.Table`: a (sparse) matrix indexed by (feature id, sample id).
The `data` function is meaningful on `features × samples`; equality of
tables is compared cell-wise on those axes. -/
structure BiomTable where
  features : List String
  samples : List String
  data : String → String → ℚ

/-- `biom.Table.transform(f, axis='sample', inplace=False)` where `f`
combines each cell of a sample's column with a scalar looked up by the
sample's id: fails (pandas `KeyError` inside the lambda) iff some sample
label is absent from the side table, otherwise produces a fresh table
with `op` applied cell-wise. -/
def transformBySample (t : BiomTable) (look : String → Option ℚ)
    (op : ℚ → ℚ → ℚ) : Except String BiomTable :=
  if t.samples.all (fun s => (look s).isSome) then
    Except.ok { t with data := fun f s => op (t.data f s) ((look s).getD 0) }
  else
    Except.error "KeyError"

/-- `biom.Table.transform(f, axis='observation', inplace=False)` with a
per-feature scalar lookup. -/
def transformByObservation (t : BiomTable) (look : String → Option ℚ)
    (op : ℚ → ℚ → ℚ) : Except String BiomTable :=
  if t.features.all (fun f => (look f).isSome) then
    Except.ok { t with data := fun f s => op (t.data f s) ((look f).getD 0) }
  else
    Except.error "KeyError"

/-- One row of the OGU+ORF coordinates table (`ogu_orf_coords_df`):
columns `ogu_orf_id`, `ogu_orf_start`, `ogu_orf_end`. -/
structure CoordsRow where
  oid : String
  startPos : ℤ
  endPos : ℤ
  deriving DecidableEq, Repr

/-- One row of the output of `_calc_ogu_orf_copies_per_g_from_coords`:
the coordinates columns plus `ogu_orf_len` and
`copies_per_g_ogu_orf_ss_rna`. -/
structure CopiesRow where
  oid : String
  startPos : ℤ
  endPos : ℤ
  len : ℤ
  copies : ℚ
  deriving DecidableEq, Repr, Inhabited

/-- Modelled from the spec: Avogadro's number, the biophysical constant
used by `calc_copies_genomic_element_per_g_series` (`util.py`, not under
`src/`): 6.022 × 10²³. -/
def AVOGADROS_NUMBER : ℚ := 6022 * 10 ^ 20

/-- Modelled from the spec: the default RNA base molar mass constant
`RNA_BASE_G_PER_MOLE` (`util.py`, not under `src/`); its exact value is
irrelevant to every claim below (only positivity and genericity in the
molar mass are used). -/
def RNA_BASE_G_PER_MOLE : ℚ := 340

/-- Modelled from the spec: `calc_copies_genomic_element_per_g_series`
(`util.py`, not under `src/`), section 4.1: Avogadro's number divided by
(element length × base molar mass), vectorized over a column of lengths.
The source's domain guard (failure on non-positive length) is outside
this pure formula; every length produced by the coordinates derivation
below is ≥ 1. -/
def calcCopiesGenomicElementPerG (lengthInBases gPerMole : ℚ) : ℚ :=
  AVOGADROS_NUMBER / (lengthInBases * gPerMole)

/-- `_calc_ogu_orf_copies_per_g_from_coords` (quant_orfs.py:25-67): per
row, the length column is computed as `end - start`, then `.abs()`, then
`+ 1`, and the copies-per-gram column from the length series; the result
is indexed by `ogu_orf_id` (lookups below search by `oid`). -/
def calcOguOrfCopiesPerGFromCoords (coords : List CoordsRow) :
    List CopiesRow :=
  coords.map (fun r =>
    let rawLen := r.endPos - r.startPos
    let absLen := |rawLen|
    let lenVal := absLen + 1
    { oid := r.oid, startPos := r.startPos, endPos := r.endPos,
      len := lenVal,
      copies := calcCopiesGenomicElementPerG (lenVal : ℚ) RNA_BASE_G_PER_MOLE })

/-- `ogu_orf_copies_per_g_ssrna_df.at[id_, COPIES_PER_G_OGU_ORF_SSRNA_KEY]`:
label lookup by feature id on the copies table. -/
def atCopiesPerG (cdf : List CopiesRow) (f : String) : Option ℚ :=
  (cdf.find? (fun r => r.oid == f)).map (fun r => r.copies)

/-- `_calc_copies_of_ogu_orf_ssrna_per_g_sample_from_dfs`
(quant_orfs.py:70-165).  Returns the pipeline result paired with the
post-call state of the caller-supplied `quant_params_per_sample_df`:
the function's first action (line 104) assigns
`quant_params_per_sample_df.index = quant_params_per_sample_df[SAMPLE_ID_KEY]`,
mutating the argument in place; the four `biom.transform` steps use
`inplace=False` and the other tables are only read. -/
def calcCopiesInner (pdf : ParamsDf) (t : BiomTable)
    (cdf : List CopiesRow) :
    Except String (BiomTable × List String) × ParamsDf :=
  let logMsgs : List String := []
  let pdfIdx : ParamsDf := { pdf with index := pdf.rows.map (fun r => r.sid) }
  let res : Except String (BiomTable × List String) :=
    match transformBySample t (atTotalReads pdfIdx) (fun x v => x / v) with
    | Except.error e => Except.error e
    | Except.ok t2 =>
      match transformBySample t2 (atSsrnaMassG pdfIdx) (fun x v => x * v) with
      | Except.error e => Except.error e
      | Except.ok t3 =>
        match transformByObservation t3 (atCopiesPerG cdf) (fun x v => x * v) with
        | Except.error e => Except.error e
        | Except.ok t4 =>
          match transformBySample t4 (atAliquotMassG pdfIdx) (fun x v => x / v) with
          | Except.error e => Except.error e
          | Except.ok t5 => Except.ok (t5, logMsgs)
  (res, pdfIdx)

/-- Ids of `as` that do not occur in `bs` (one direction of a
set difference, kept in `as`'s order). -/
def idsNotIn (as bs : List String) : List String :=
  as.filter (fun i => !(bs.contains i))

/-- Joined rendering of an id list inside an error message. -/
def renderIds (ids : List String) : String :=
  String.intercalate ", " ids

/-- Fatal message of the consistency validator: ids found on the data
side with no counterpart on the reference side. -/
def idMismatchMsg (dataName refName : String) (offenders : List String) :
    String :=
  "Found ids in " ++ dataName ++ " that were not in " ++ refName ++ ": "
    ++ renderIds offenders

/-- Modelled from the spec: `validate_id_consistency_between_datasets`
(`util.py`, not under `src/`), section 4.2, policy driven by
`exactMatchRequired`.  With the flag false, ids on the data side missing
from the reference side are fatal; ids on the reference side missing from
the data side are tolerated and returned as an informational list
(`none` when there are no such ids, matching
`test__validate_sample_id_consistency`, which asserts `None` on a full
match and `["C"]` when sample C is only in the sample info). -/
def validateIdConsistency (refIds dataIds : List String)
    (refName dataName : String) (exactMatchRequired : Bool) :
    Except String (Option (List String)) :=
  let extraInData := idsNotIn dataIds refIds
  let missingInData := idsNotIn refIds dataIds
  if exactMatchRequired then
    if extraInData.isEmpty && missingInData.isEmpty then
      Except.ok none
    else
      Except.error
        (idMismatchMsg dataName refName (extraInData ++ missingInData))
  else
    if extraInData.isEmpty then
      Except.ok (if missingInData.isEmpty then none else some missingInData)
    else
      Except.error (idMismatchMsg dataName refName extraInData)

/-- Does a metadata row carry a usable (non-missing) value in every
column the projection consumes? (`REQUIRED_PARAM_KEYS` minus the sample
id itself, quant_orfs.py:312-313). -/
def sampleRowOk (r : ParamRow) : Bool :=
  r.aliquotMassG.isSome && r.concNgUl.isSome && r.eluteVolUl.isSome
    && r.totalReads.isSome

/-- Is the sample kept by the sample filter: it must have a metadata row
and that row must be valid in all required columns. -/
def keepSample (df : ParamsDf) (s : String) : Bool :=
  match findRow df s with
  | some r => sampleRowOk r
  | none => false

/-- Log message naming a sample dropped by the sample filter. -/
def droppedSampleMsg (s : String) : String :=
  "Dropped sample " ++ s
    ++ " because it had missing or invalid values in required columns"

/-- Modelled from the spec: `filter_data_by_sample_info` (`util.py`, not
under `src/`), section 4.3: remove every sample column of the count
matrix whose metadata row has a missing/invalid value in any required
column (a sample with no metadata row at all is likewise dropped, never
raised on), returning the fresh filtered table and log messages naming
the dropped samples. -/
def filterDataBySampleInfo (df : ParamsDf) (t : BiomTable) :
    BiomTable × List String :=
  ({ t with samples := t.samples.filter (fun s => keepSample df s) },
   (t.samples.filter (fun s => !(keepSample df s))).map droppedSampleMsg)

/-- `calc_copies_of_ogu_orf_ssrna_per_g_sample_from_dfs`
(quant_orfs.py:252-332): validate required columns (guaranteed here by
the record types), validate sample-id consistency with the tolerant
policy, cast the numeric columns on a fresh copy (`cast_cols`, util.py,
modelled per the spec as producing a new table with the same values),
set the index of that copy, filter out samples with bad parameters,
derive the copies-per-gram table from the (validated, freshly cast)
coordinates, and run the inner chain.  The second component is the
post-call state of the three caller-supplied tables: every mutation in
the body targets a fresh copy, so they come back unchanged. -/
def calcCopiesOuterFull (pdf : ParamsDf) (t : BiomTable)
    (coords : List CoordsRow) :
    Except String (BiomTable × List String)
      × (ParamsDf × BiomTable × List CoordsRow) :=
  let res : Except String (BiomTable × List String) :=
    match validateIdConsistency (pdf.rows.map (fun r => r.sid)) t.samples
        "sample info" "reads data" false with
    | Except.error e => Except.error e
    | Except.ok _ =>
      let pdfCast : ParamsDf := { rows := pdf.rows, index := pdf.index }
      let pdfIdx : ParamsDf :=
        { pdfCast with index := pdfCast.rows.map (fun r => r.sid) }
      let filtered := filterDataBySampleInfo pdfIdx t
      let coordsCast : List CoordsRow := coords
      let cdf := calcOguOrfCopiesPerGFromCoords coordsCast
      match (calcCopiesInner pdfIdx filtered.1 cdf).1 with
      | Except.error e => Except.error e
      | Except.ok (outT, innerLogs) =>
        Except.ok (outT, filtered.2 ++ innerLogs)
  (res, (pdf, t, coords))

/-- One row of the syndna concentrations table (`syndna_concs_df`):
columns `syndna_id` and `syndna_indiv_ng_ul`. -/
structure SyndnaConcRow where
  sid : String
  concNgUl : ℚ
  deriving DecidableEq, Repr

/-- One row of `sample_syndna_weights_and_total_reads_df`: columns
`sample_name`, `raw_reads_r1r2`, and `mass_syndna_input_ng`. -/
structure SampleReadsRow where
  sid : String
  totalReads : ℚ
  poolMassNg : ℚ
  deriving DecidableEq, Repr

/-- The fitted result for one sample: the six scalar fields of a
`LinregressResult`. -/
structure RegModel where
  slope : ℚ
  intercept : ℚ
  rvalue : ℚ
  pvalue : ℚ
  stderrSlope : ℚ
  stderrIntercept : ℚ
  deriving DecidableEq, Repr

/-- Fatal message: syndna ids declared in the concentrations table but
absent from the read data (cf.
`test__validate_syndna_id_consistency_w_error_missing_data`). -/
def syndnaMissingMsg (ids : List String) : String :=
  "Missing the following " ++ toString ids.length
    ++ " required syndna feature(s) in the read data: " ++ renderIds ids

/-- Fatal message: syndna ids present in the read data but not declared
in the concentrations table (cf.
`test__validate_syndna_id_consistency_w_error_missing_info`). -/
def syndnaExtraMsg (ids : List String) : String :=
  "Detected " ++ toString ids.length
    ++ " syndna feature(s) in the read data that were not in the config: "
    ++ renderIds ids

/-- Modelled from the spec: `_validate_syndna_id_consistency`
(`fit_syndna_models.py`, not under `src/`), spec section 3 invariant:
every feature id of the reference table must appear in the count matrix
and vice versa; a violation in either direction is a fatal error naming
the offending ids (behaviour fixed by the two
`test__validate_syndna_id_consistency_w_error_*` tests in `src/`). -/
def validateSyndnaIdConsistency (configIds dataIds : List String) :
    Except String Unit :=
  let missingInData := idsNotIn configIds dataIds
  if missingInData.isEmpty then
    let extraInData := idsNotIn dataIds configIds
    if extraInData.isEmpty then Except.ok ()
    else Except.error (syndnaExtraMsg extraInData)
  else
    Except.error (syndnaMissingMsg missingInData)

/-- Tolerated-anomaly log message: sample ids declared in the experiment
info that never appear in the read data (wording fixed by
`test_fit_linear_regression_models_w_log_msgs`). -/
def sampleMismatchMsg (ids : List String) : String :=
  "The following sample ids were in the experiment info but not in the data: "
    ++ renderIds ids

/-- Tolerated-anomaly log message: syndna features dropped for falling
below the minimum total aligned read count (wording fixed by
`test_fit_linear_regression_models_w_log_msgs`). -/
def droppedSyndnaMsg (minCount : ℚ) (ids : List String) : String :=
  "The following syndnas were dropped because they had fewer than "
    ++ toString minCount ++ " total reads aligned:" ++ renderIds ids

/-- Total aligned reads of one syndna feature, summed across all
samples of the count matrix. -/
def totalFeatureReads (t : BiomTable) (f : String) : ℚ :=
  (t.samples.map (fun s => t.data f s)).sum

/-- Spec section 4.4 step 2: a calibration feature's individual mass in
its sample's pool, `fraction_of_pool = individual_concentration /
sum(individual_concentrations)`, `individual_mass_ng = fraction_of_pool
× pool_mass_ng`, computed per (sample, feature) pair. -/
def indivSyndnaMassNg (concs : List SyndnaConcRow)
    (sampleInfo : List SampleReadsRow) (s f : String) : ℚ :=
  let concSum := (concs.map (fun r => r.concNgUl)).sum
  let conc := ((concs.find? (fun r => r.sid == f)).map
    (fun r => r.concNgUl)).getD 0
  let poolMass := ((sampleInfo.find? (fun r => r.sid == s)).map
    (fun r => r.poolMassNg)).getD 0
  conc / concSum * poolMass

/-- Modelled from the spec: `fit_linear_regression_models`
(`fit_syndna_models.py`, not under `src/`), section 4.4.  Step 1
validates syndna-id consistency (fatal both ways) then sample-id
consistency with the tolerant policy (extra info-side samples become a
log message); step 2 computes each feature's individual pool mass;
step 3 drops features whose total aligned reads fall below `minCount`,
logging them in one consolidated message; step 4 fits one model per
sample over the surviving (mass, count) points — the ordinary
least-squares fit of log10(count) against log10(mass) is
`scipy.stats.linregress`, external numeric code abstracted here as the
`fitFn` parameter; step 5 returns the per-sample models plus the log
list, sample-level messages before feature-level messages. -/
def fitLinearRegressionModels (fitFn : List (ℚ × ℚ) → RegModel)
    (syndnaConcs : List SyndnaConcRow)
    (sampleInfo : List SampleReadsRow)
    (reads : BiomTable) (minCount : ℚ) :
    Except String (List (String × RegModel) × List String) :=
  match validateSyndnaIdConsistency (syndnaConcs.map (fun r => r.sid))
      reads.features with
  | Except.error e => Except.error e
  | Except.ok _ =>
    match validateIdConsistency (sampleInfo.map (fun r => r.sid))
        reads.samples "sample_syndna_weights_and_total_reads_df"
        "reads_per_syndna_per_sample_df" false with
    | Except.error e => Except.error e
    | Except.ok extras =>
      let sampleMsgs : List String :=
        match extras with
        | none => []
        | some l => [sampleMismatchMsg l]
      let droppedFeatures :=
        reads.features.filter (fun f => totalFeatureReads reads f < minCount)
      let keptFeatures :=
        reads.features.filter
          (fun f => !(totalFeatureReads reads f < minCount))
      let featureMsgs : List String :=
        if droppedFeatures.isEmpty then []
        else [droppedSyndnaMsg minCount droppedFeatures]
      let models := reads.samples.map (fun s =>
        (s, fitFn (keptFeatures.map (fun f =>
          (indivSyndnaMassNg syndnaConcs sampleInfo s f, reads.data f s)))))
      Except.ok (models, sampleMsgs ++ featureMsgs)

/-- One row of a Qiita prep-info table: columns `sample_name`,
`raw_reads_r1r2`, `mass_syndna_input_ng`, and `syndna_pool_number`. -/
structure PrepInfoRow where
  sid : String
  totalReads : ℚ
  poolMassNg : ℚ
  poolNum : ℤ
  deriving DecidableEq, Repr

/-- Ambiguous-input message of the Qiita wrapper: all distinct pool
numbers, rendered numpy-style (wording fixed by
`test_fit_linear_regression_models_for_qiita_w_pool_error`, which
expects `[1 2]`). -/
def poolErrMsg (vals : List ℤ) : String :=
  "Multiple syndna_pool_numbers found in prep info: ["
    ++ String.intercalate " " (vals.map toString) ++ "]"

/-- The sorted list of distinct spike-in pool numbers of a prep
(`numpy.unique` of the `syndna_pool_number` column). -/
def distinctPoolNums (prepInfo : List PrepInfoRow) : List ℤ :=
  List.insertionSort (· ≤ ·) (prepInfo.map (fun r => r.poolNum)).dedup

/-- Modelled from the spec: `fit_linear_regression_models_for_qiita`
(`fit_syndna_models.py`, not under `src/`), spec sections 6-7: the
wrapper checks the required prep-info columns (guaranteed here by the
record type), collects the distinct spike-in pool numbers, raises an
ambiguous-input error naming them all (sorted) when there is more than
one, and otherwise forwards to `fitLinearRegressionModels` with the
concentrations configured for the single pool (the YAML configuration
lookup is an external collaborator, abstracted as `concsForPool`). -/
def fitLinearRegressionModelsForQiita (fitFn : List (ℚ × ℚ) → RegModel)
    (concsForPool : ℤ → List SyndnaConcRow)
    (prepInfo : List PrepInfoRow)
    (reads : BiomTable) (minCount : ℚ) :
    Except String (List (String × RegModel) × List String) :=
  let pools := distinctPoolNums prepInfo
  if 1 < pools.length then
    Except.error (poolErrMsg pools)
  else
    fitLinearRegressionModels fitFn (concsForPool (pools.headD 0))
      (prepInfo.map (fun r => ⟨r.sid, r.totalReads, r.poolMassNg⟩))
      reads minCount

/-! ## Lemmas about the projection chain -/

/-- Unfolding lemma: with every sample label present in the side table,
a sample-axis transform succeeds with the cell-wise result. -/
theorem transformBySample_of_all (t : BiomTable) (look : String → Option ℚ)
    (op : ℚ → ℚ → ℚ)
    (h : (t.samples.all fun s => (look s).isSome) = true) :
    transformBySample t look op =
      Except.ok { t with data := fun f s => op (t.data f s) ((look s).getD 0) } := by
  simp [transformBySample, h]

/-- Unfolding lemma: with every feature label present in the side table,
an observation-axis transform succeeds with the cell-wise result. -/
theorem transformByObservation_of_all (t : BiomTable)
    (look : String → Option ℚ) (op : ℚ → ℚ → ℚ)
    (h : (t.features.all fun f => (look f).isSome) = true) :
    transformByObservation t look op =
      Except.ok { t with data := fun f s => op (t.data f s) ((look f).getD 0) } := by
  simp [transformByObservation, h]

/-- The four-stage chain succeeds when the side tables cover the
matrix's samples and features, and each output cell is the input cell
divided by the sample's total biological reads, times the sample's total
ssRNA mass in the elute, times the feature's copies per gram, divided by
the sample's aliquot mass — in that stage order. -/
theorem calcCopiesInner_ok_cells (pdf : ParamsDf) (t : BiomTable)
    (cdf : List CopiesRow)
    (hs : ∀ s ∈ t.samples, (findRow pdf s).isSome)
    (hf : ∀ f ∈ t.features, (atCopiesPerG cdf f).isSome) :
    (calcCopiesInner pdf t cdf).1 =
      Except.ok
        ({ features := t.features, samples := t.samples,
           data := fun f s =>
             t.data f s / (atTotalReads pdf s).getD 0
               * (atSsrnaMassG pdf s).getD 0
               * (atCopiesPerG cdf f).getD 0
               / (atAliquotMassG pdf s).getD 0 }, []) := by
  have pdfIdxRows :
      findRow { pdf with index := pdf.rows.map (fun r => r.sid) } = findRow pdf :=
    rfl
  have g1 : (t.samples.all fun s =>
      (atTotalReads { pdf with index := pdf.rows.map (fun r => r.sid) } s).isSome) = true := by
    rw [List.all_eq_true]
    intro s hsm
    simpa [atTotalReads, pdfIdxRows, Option.isSome_map'] using hs s hsm
  have g2 : (t.samples.all fun s =>
      (atSsrnaMassG { pdf with index := pdf.rows.map (fun r => r.sid) } s).isSome) = true := by
    rw [List.all_eq_true]
    intro s hsm
    simpa [atSsrnaMassG, pdfIdxRows, Option.isSome_map'] using hs s hsm
  have g4 : (t.samples.all fun s =>
      (atAliquotMassG { pdf with index := pdf.rows.map (fun r => r.sid) } s).isSome) = true := by
    rw [List.all_eq_true]
    intro s hsm
    simpa [atAliquotMassG, pdfIdxRows, Option.isSome_map'] using hs s hsm
  have g3 : (t.features.all fun f => (atCopiesPerG cdf f).isSome) = true := by
    rw [List.all_eq_true]
    intro f hfm
    exact hf f hfm
  simp only [calcCopiesInner]
  rw [transformBySample_of_all t _ _ g1]
  simp only []
  rw [transformBySample_of_all
    (BiomTable.mk t.features t.samples
      (fun f s => t.data f s /
        (atTotalReads { pdf with index := pdf.rows.map (fun r => r.sid) } s).getD 0))
    _ _ g2]
  simp only []
  rw [transformByObservation_of_all
    (BiomTable.mk t.features t.samples
      (fun f s => t.data f s /
        (atTotalReads { pdf with index := pdf.rows.map (fun r => r.sid) } s).getD 0
        * (atSsrnaMassG { pdf with index := pdf.rows.map (fun r => r.sid) } s).getD 0))
    _ _ g3]
  simp only []
  rw [transformBySample_of_all
    (BiomTable.mk t.features t.samples
      (fun f s => t.data f s /
        (atTotalReads { pdf with index := pdf.rows.map (fun r => r.sid) } s).getD 0
        * (atSsrnaMassG { pdf with index := pdf.rows.map (fun r => r.sid) } s).getD 0
        * (atCopiesPerG cdf f).getD 0))
    _ _ g4]
  rfl

/-- C1: for every count matrix, per-sample parameters table, and
per-feature copies-per-gram table whose labels cover the matrix's
samples and features, the projection returns a matrix whose every
(feature, sample) cell is
`raw / total_biological_reads[sample] * ssrna_mass_in_elute[sample]
  * copies_per_gram[feature] / aliquot_mass_g[sample]`,
in that stage order, with no log messages. -/
theorem projection_cell_formula (pdf : ParamsDf) (t : BiomTable)
    (cdf : List CopiesRow)
    (hs : ∀ s ∈ t.samples, (findRow pdf s).isSome)
    (hf : ∀ f ∈ t.features, (atCopiesPerG cdf f).isSome) :
    ∃ out : BiomTable,
      (calcCopiesInner pdf t cdf).1 = Except.ok (out, []) ∧
      out.features = t.features ∧ out.samples = t.samples ∧
      ∀ f ∈ t.features, ∀ s ∈ t.samples,
        out.data f s =
          t.data f s / (atTotalReads pdf s).getD 0
            * (atSsrnaMassG pdf s).getD 0
            * (atCopiesPerG cdf f).getD 0
            / (atAliquotMassG pdf s).getD 0 := by
  refine ⟨_, calcCopiesInner_ok_cells pdf t cdf hs hf, rfl, rfl, ?_⟩
  intro f _ s _
  rfl

/-- Witness for C1 at a concrete one-cell input: raw count 6, total
reads 3, concentration 5, elution volume 7, copies per gram 11, aliquot
mass 2: the output cell is 6 / 3 * (5 * 7) * 11 / 2 = 385. -/
theorem projection_cell_formula_witness :
    ∃ out : BiomTable,
      (calcCopiesInner
          ⟨[⟨"A", some 2, some 5, some 7, some 3⟩], ["0"]⟩
          ⟨["orf1"], ["A"], fun _ _ => 6⟩
          [⟨"orf1", 1, 3, 3, 11⟩]).1 = Except.ok (out, []) ∧
      out.features = ["orf1"] ∧ out.samples = ["A"] ∧
      ∀ f ∈ ["orf1"], ∀ s ∈ ["A"],
        out.data f s =
          (6 : ℚ) / (atTotalReads ⟨[⟨"A", some 2, some 5, some 7, some 3⟩], ["0"]⟩ s).getD 0
            * (atSsrnaMassG ⟨[⟨"A", some 2, some 5, some 7, some 3⟩], ["0"]⟩ s).getD 0
            * (atCopiesPerG [⟨"orf1", 1, 3, 3, 11⟩] f).getD 0
            / (atAliquotMassG ⟨[⟨"A", some 2, some 5, some 7, some 3⟩], ["0"]⟩ s).getD 0 :=
  projection_cell_formula
    ⟨[⟨"A", some 2, some 5, some 7, some 3⟩], ["0"]⟩
    ⟨["orf1"], ["A"], fun _ _ => 6⟩
    [⟨"orf1", 1, 3, 3, 11⟩]
    (by intro s hsm; simp at hsm; subst hsm; decide)
    (by intro f hfm; simp at hfm; subst hfm; decide)

/-- C2: when every per-sample metadata value the projection consumes is
1 (aliquot mass, concentration, elution volume, total reads) and every
feature's copies-per-gram factor is 1, the projected matrix equals the
raw input matrix cell for cell. -/
theorem projection_unit_roundtrip (pdf : ParamsDf) (t : BiomTable)
    (cdf : List CopiesRow)
    (hs : ∀ s ∈ t.samples, ∃ r, findRow pdf s = some r ∧
      r.aliquotMassG = some 1 ∧ r.concNgUl = some 1 ∧
      r.eluteVolUl = some 1 ∧ r.totalReads = some 1)
    (hf : ∀ f ∈ t.features, atCopiesPerG cdf f = some 1) :
    ∃ out : BiomTable,
      (calcCopiesInner pdf t cdf).1 = Except.ok (out, []) ∧
      out.features = t.features ∧ out.samples = t.samples ∧
      ∀ f ∈ t.features, ∀ s ∈ t.samples, out.data f s = t.data f s := by
  have hs' : ∀ s ∈ t.samples, (findRow pdf s).isSome := by
    intro s hsm
    obtain ⟨r, hr, -⟩ := hs s hsm
    simp [hr]
  have hf' : ∀ f ∈ t.features, (atCopiesPerG cdf f).isSome := by
    intro f hfm
    simp [hf f hfm]
  refine ⟨_, calcCopiesInner_ok_cells pdf t cdf hs' hf', rfl, rfl, ?_⟩
  intro f hfm s hsm
  obtain ⟨r, hr, h1, h2, h3, h4⟩ := hs s hsm
  show t.data f s / (atTotalReads pdf s).getD 0
      * (atSsrnaMassG pdf s).getD 0
      * (atCopiesPerG cdf f).getD 0
      / (atAliquotMassG pdf s).getD 0 = t.data f s
  simp [atTotalReads, atSsrnaMassG, atAliquotMassG, ssrnaFromAliquotMassG,
    hr, h1, h2, h3, h4, hf f hfm]

/-- Witness for C2: a 1×1 matrix with count 42 and all-ones metadata
comes back with the cell 42. -/
theorem projection_unit_roundtrip_witness :
    ∃ out : BiomTable,
      (calcCopiesInner
          ⟨[⟨"A", some 1, some 1, some 1, some 1⟩], ["0"]⟩
          ⟨["orf1"], ["A"], fun _ _ => 42⟩
          [⟨"orf1", 1, 3, 3, 1⟩]).1 = Except.ok (out, []) ∧
      out.features = ["orf1"] ∧ out.samples = ["A"] ∧
      ∀ f ∈ ["orf1"], ∀ s ∈ ["A"], out.data f s = (42 : ℚ) :=
  projection_unit_roundtrip
    ⟨[⟨"A", some 1, some 1, some 1, some 1⟩], ["0"]⟩
    ⟨["orf1"], ["A"], fun _ _ => 42⟩
    [⟨"orf1", 1, 3, 3, 1⟩]
    (by
      intro s hsm
      simp at hsm
      subst hsm
      exact ⟨⟨"A", some 1, some 1, some 1, some 1⟩, by decide, rfl, rfl, rfl, rfl⟩)
    (by intro f hfm; simp at hfm; subst hfm; decide)

/-- C3: every row of the copies-per-gram table derived from a
coordinates table has its length column equal to |end − start| + 1,
with arbitrary integer start and end (start less than, equal to, or
greater than end). -/
theorem coords_row_length (coords : List CoordsRow) (row : CopiesRow)
    (hrow : row ∈ calcOguOrfCopiesPerGFromCoords coords) :
    row.len = |row.endPos - row.startPos| + 1 := by
  unfold calcOguOrfCopiesPerGFromCoords at hrow
  obtain ⟨r, -, rfl⟩ := List.mem_map.mp hrow
  rfl

/-- Witness for C3 at the spec's worked example with start greater than
end: the row (start 7372, end 5432) gets length |5432 − 7372| + 1 =
1941. -/
theorem coords_row_length_witness :
    (calcOguOrfCopiesPerGFromCoords
        [CoordsRow.mk "G000005825_6" 7372 5432]).headI.len
      = |(calcOguOrfCopiesPerGFromCoords
            [CoordsRow.mk "G000005825_6" 7372 5432]).headI.endPos
          - (calcOguOrfCopiesPerGFromCoords
              [CoordsRow.mk "G000005825_6" 7372 5432]).headI.startPos| + 1 :=
  coords_row_length [CoordsRow.mk "G000005825_6" 7372 5432] _
    (by simp [calcOguOrfCopiesPerGFromCoords])

/-- C4: for every length at least 1 and positive base molar mass,
copies-per-gram is Avogadro's number over (length × molar mass), is
strictly positive, and strictly decreases as the length grows. -/
theorem copies_per_gram_positive_antitone (l₁ l₂ m : ℚ)
    (hl₁ : 1 ≤ l₁) (hl₂ : l₁ < l₂) (hm : 0 < m) :
    calcCopiesGenomicElementPerG l₁ m = AVOGADROS_NUMBER / (l₁ * m) ∧
    0 < calcCopiesGenomicElementPerG l₁ m ∧
    calcCopiesGenomicElementPerG l₂ m < calcCopiesGenomicElementPerG l₁ m := by
  have hA : (0 : ℚ) < AVOGADROS_NUMBER := by norm_num [AVOGADROS_NUMBER]
  have h1 : (0 : ℚ) < l₁ * m := mul_pos (lt_of_lt_of_le one_pos hl₁) hm
  refine ⟨rfl, div_pos hA h1, ?_⟩
  exact div_lt_div_of_pos_left hA h1 (mul_lt_mul_of_pos_right hl₂ hm)

/-- Witness for C4 at lengths 1 < 2 and molar mass 1. -/
theorem copies_per_gram_positive_antitone_witness :
    calcCopiesGenomicElementPerG 1 1 = AVOGADROS_NUMBER / (1 * 1) ∧
    0 < calcCopiesGenomicElementPerG 1 1 ∧
    calcCopiesGenomicElementPerG 2 1 < calcCopiesGenomicElementPerG 1 1 :=
  copies_per_gram_positive_antitone 1 2 1 (le_refl 1) (by norm_num)
    (by norm_num)

/-- C5: with exact matching not required, a validated pair of id
collections raises a fatal error naming exactly the data-side ids that
are missing from the reference side whenever there is one, and otherwise
raises nothing and returns the reference-side ids absent from the data
side as the informational result (`none` encoding the empty list, as the
source does). -/
theorem id_consistency_tolerant_policy (refIds dataIds : List String)
    (refName dataName : String) :
    (idsNotIn dataIds refIds ≠ [] →
      validateIdConsistency refIds dataIds refName dataName false =
        Except.error (idMismatchMsg dataName refName (idsNotIn dataIds refIds))) ∧
    (idsNotIn dataIds refIds = [] →
      validateIdConsistency refIds dataIds refName dataName false =
        Except.ok (if idsNotIn refIds dataIds = [] then none
          else some (idsNotIn refIds dataIds))) := by
  constructor
  · intro h
    have hne : (idsNotIn dataIds refIds).isEmpty = false := by
      simpa [List.isEmpty_iff] using h
    simp [validateIdConsistency, hne]
  · intro h
    simp [validateIdConsistency, h, List.isEmpty_iff]

/-- Witness for C5 at the spec's example: reference {A,B,C} with data
{A,B} returns the informational list [C]; reference {A,B} with data
{A,B,C} raises naming C. -/
theorem id_consistency_tolerant_policy_witness :
    validateIdConsistency ["A", "B", "C"] ["A", "B"] "ref" "data" false =
      Except.ok (some ["C"]) ∧
    validateIdConsistency ["A", "B"] ["A", "B", "C"] "ref" "data" false =
      Except.error (idMismatchMsg "data" "ref" ["C"]) := by
  constructor
  · have h :=
      (id_consistency_tolerant_policy ["A", "B", "C"] ["A", "B"] "ref" "data").2
        (by decide)
    simpa using h
  · have h :=
      (id_consistency_tolerant_policy ["A", "B"] ["A", "B", "C"] "ref" "data").1
        (by decide)
    simpa using h

/-- The syndna-id validator errors with the missing-in-data message when
some configured id is absent from the read data. -/
theorem validateSyndna_error_missing (configIds dataIds : List String)
    (h : idsNotIn configIds dataIds ≠ []) :
    validateSyndnaIdConsistency configIds dataIds =
      Except.error (syndnaMissingMsg (idsNotIn configIds dataIds)) := by
  have hne : (idsNotIn configIds dataIds).isEmpty = false := by
    simpa [List.isEmpty_iff] using h
  simp [validateSyndnaIdConsistency, hne]

/-- The syndna-id validator errors with the extra-in-data message when
the configured ids all appear but the data has extra ids. -/
theorem validateSyndna_error_extra (configIds dataIds : List String)
    (h1 : idsNotIn configIds dataIds = [])
    (h2 : idsNotIn dataIds configIds ≠ []) :
    validateSyndnaIdConsistency configIds dataIds =
      Except.error (syndnaExtraMsg (idsNotIn dataIds configIds)) := by
  have hne : (idsNotIn dataIds configIds).isEmpty = false := by
    simpa [List.isEmpty_iff] using h2
  simp [validateSyndnaIdConsistency, h1, hne, List.isEmpty_iff]

/-- C6: the calibration fitter raises a fatal error on any feature-id
mismatch between the concentrations reference table and the count
matrix, in either direction, with the error message built from a
non-empty list of precisely such offending feature ids — never a silent
drop or a mere log entry. -/
theorem calibration_feature_mismatch_fatal
    (fitFn : List (ℚ × ℚ) → RegModel)
    (syndnaConcs : List SyndnaConcRow) (sampleInfo : List SampleReadsRow)
    (reads : BiomTable) (minCount : ℚ)
    (h : idsNotIn (syndnaConcs.map (fun r => r.sid)) reads.features ≠ [] ∨
      idsNotIn reads.features (syndnaConcs.map (fun r => r.sid)) ≠ []) :
    ∃ offenders msg,
      offenders ≠ [] ∧
      (∀ i ∈ offenders,
        (i ∈ syndnaConcs.map (fun r => r.sid) ∧ i ∉ reads.features) ∨
        (i ∈ reads.features ∧ i ∉ syndnaConcs.map (fun r => r.sid))) ∧
      (msg = syndnaMissingMsg offenders ∨ msg = syndnaExtraMsg offenders) ∧
      fitLinearRegressionModels fitFn syndnaConcs sampleInfo reads minCount =
        Except.error msg := by
  by_cases hm : idsNotIn (syndnaConcs.map (fun r => r.sid)) reads.features = []
  · have h2 : idsNotIn reads.features (syndnaConcs.map (fun r => r.sid)) ≠ [] := by
      rcases h with h1 | h2
      · exact absurd hm h1
      · exact h2
    refine ⟨idsNotIn reads.features (syndnaConcs.map (fun r => r.sid)), _,
      h2, ?_, Or.inr rfl, ?_⟩
    · intro i hi
      rw [idsNotIn, List.mem_filter] at hi
      right
      refine ⟨hi.1, ?_⟩
      simpa using hi.2
    · have hv := validateSyndna_error_extra _ _ hm h2
      simp [fitLinearRegressionModels, hv]
  · refine ⟨idsNotIn (syndnaConcs.map (fun r => r.sid)) reads.features, _,
      hm, ?_, Or.inl rfl, ?_⟩
    · intro i hi
      rw [idsNotIn, List.mem_filter] at hi
      left
      refine ⟨hi.1, ?_⟩
      simpa using hi.2
    · have hv := validateSyndna_error_missing _ _ hm
      simp [fitLinearRegressionModels, hv]

/-- Witness for C6: the concentrations table declares p1; the read data
only has p266. -/
theorem calibration_feature_mismatch_fatal_witness :
    ∃ offenders msg,
      offenders ≠ [] ∧
      (∀ i ∈ offenders,
        (i ∈ [SyndnaConcRow.mk "p1" 1].map (fun r => r.sid) ∧
          i ∉ (BiomTable.mk ["p266"] ["A"] (fun _ _ => 1)).features) ∨
        (i ∈ (BiomTable.mk ["p266"] ["A"] (fun _ _ => 1)).features ∧
          i ∉ [SyndnaConcRow.mk "p1" 1].map (fun r => r.sid))) ∧
      (msg = syndnaMissingMsg offenders ∨ msg = syndnaExtraMsg offenders) ∧
      fitLinearRegressionModels (fun _ => RegModel.mk 0 0 0 0 0 0)
          [SyndnaConcRow.mk "p1" 1] []
          (BiomTable.mk ["p266"] ["A"] (fun _ _ => 1)) 50 =
        Except.error msg :=
  calibration_feature_mismatch_fatal (fun _ => RegModel.mk 0 0 0 0 0 0)
    [SyndnaConcRow.mk "p1" 1] [] (BiomTable.mk ["p266"] ["A"] (fun _ _ => 1))
    50 (Or.inl (by decide))

/-- C7: a prep-info table with more than one distinct spike-in pool
number makes the Qiita model-fitting wrapper fail with the
ambiguous-input error whose message is built from the list of all
distinct pool numbers found, sorted (and duplicate-free, covering
exactly the values present in the prep). -/
theorem qiita_multiple_pools_error (fitFn : List (ℚ × ℚ) → RegModel)
    (concsForPool : ℤ → List SyndnaConcRow)
    (prepInfo : List PrepInfoRow) (reads : BiomTable) (minCount : ℚ)
    (h : 1 < (distinctPoolNums prepInfo).length) :
    fitLinearRegressionModelsForQiita fitFn concsForPool prepInfo reads
        minCount =
      Except.error (poolErrMsg (distinctPoolNums prepInfo)) ∧
    List.Sorted (· ≤ ·) (distinctPoolNums prepInfo) ∧
    (distinctPoolNums prepInfo).Nodup ∧
    ∀ v : ℤ, v ∈ distinctPoolNums prepInfo ↔
      v ∈ prepInfo.map (fun r => r.poolNum) := by
  have hperm := List.perm_insertionSort (· ≤ ·)
    (prepInfo.map (fun r => r.poolNum)).dedup
  refine ⟨?_, List.sorted_insertionSort _ _, ?_, ?_⟩
  · simp [fitLinearRegressionModelsForQiita, h]
  · exact hperm.nodup_iff.mpr (List.nodup_dedup _)
  · intro v
    rw [distinctPoolNums, hperm.mem_iff, List.mem_dedup]

/-- Witness for C7: pool numbers [1, 2] in the prep info. -/
theorem qiita_multiple_pools_error_witness :
    fitLinearRegressionModelsForQiita (fun _ => RegModel.mk 0 0 0 0 0 0)
        (fun _ => []) [PrepInfoRow.mk "A" 100 1 1, PrepInfoRow.mk "B" 100 1 2]
        (BiomTable.mk [] [] (fun _ _ => 0)) 50 =
      Except.error (poolErrMsg (distinctPoolNums
        [PrepInfoRow.mk "A" 100 1 1, PrepInfoRow.mk "B" 100 1 2])) ∧
    List.Sorted (· ≤ ·) (distinctPoolNums
      [PrepInfoRow.mk "A" 100 1 1, PrepInfoRow.mk "B" 100 1 2]) ∧
    (distinctPoolNums
      [PrepInfoRow.mk "A" 100 1 1, PrepInfoRow.mk "B" 100 1 2]).Nodup ∧
    ∀ v : ℤ, v ∈ distinctPoolNums
        [PrepInfoRow.mk "A" 100 1 1, PrepInfoRow.mk "B" 100 1 2] ↔
      v ∈ [PrepInfoRow.mk "A" 100 1 1, PrepInfoRow.mk "B" 100 1 2].map
        (fun r => r.poolNum) :=
  qiita_multiple_pools_error (fun _ => RegModel.mk 0 0 0 0 0 0) (fun _ => [])
    [PrepInfoRow.mk "A" 100 1 1, PrepInfoRow.mk "B" 100 1 2]
    (BiomTable.mk [] [] (fun _ _ => 0)) 50 (by decide)

/-- C8: whenever the calibration fitter succeeds, its log list splits
into a block of sample-level (sample-mismatch) messages followed by a
block of feature-level (dropped-syndna) messages, so every sample-level
message precedes every feature-level message, deterministically. -/
theorem fit_log_messages_ordered (fitFn : List (ℚ × ℚ) → RegModel)
    (syndnaConcs : List SyndnaConcRow) (sampleInfo : List SampleReadsRow)
    (reads : BiomTable) (minCount : ℚ)
    (models : List (String × RegModel)) (logs : List String)
    (h : fitLinearRegressionModels fitFn syndnaConcs sampleInfo reads
        minCount = Except.ok (models, logs)) :
    ∃ sm fm, logs = sm ++ fm ∧
      (∀ m ∈ sm, ∃ ids, m = sampleMismatchMsg ids) ∧
      (∀ m ∈ fm, ∃ ids, m = droppedSyndnaMsg minCount ids) := by
  unfold fitLinearRegressionModels at h
  cases hv1 : validateSyndnaIdConsistency (syndnaConcs.map (fun r => r.sid))
      reads.features with
  | error e => rw [hv1] at h; exact absurd h (by simp)
  | ok u =>
    rw [hv1] at h
    cases hv2 : validateIdConsistency (sampleInfo.map (fun r => r.sid))
        reads.samples "sample_syndna_weights_and_total_reads_df"
        "reads_per_syndna_per_sample_df" false with
    | error e => rw [hv2] at h; exact absurd h (by simp)
    | ok extras =>
      rw [hv2] at h
      cases extras with
      | none =>
        simp only [Except.ok.injEq, Prod.mk.injEq] at h
        refine ⟨[], _, h.2.symm, by simp, ?_⟩
        intro m hm
        by_cases hd : (reads.features.filter
            (fun f => totalFeatureReads reads f < minCount)).isEmpty
        · rw [if_pos hd] at hm
          simp at hm
        · rw [if_neg hd] at hm
          simp at hm
          exact ⟨_, hm⟩
      | some l =>
        simp only [Except.ok.injEq, Prod.mk.injEq] at h
        refine ⟨[sampleMismatchMsg l], _, h.2.symm, ?_, ?_⟩
        · intro m hm
          simp at hm
          exact ⟨l, hm⟩
        · intro m hm
          by_cases hd : (reads.features.filter
              (fun f => totalFeatureReads reads f < minCount)).isEmpty
          · rw [if_pos hd] at hm
            simp at hm
          · rw [if_neg hd] at hm
            simp at hm
            exact ⟨_, hm⟩

/-- Witness for C8: one declared sample B missing from the data and one
syndna p1 below the threshold produce exactly the sample-mismatch
message followed by the dropped-syndna message. -/
theorem fit_log_messages_ordered_witness :
    ∃ sm fm,
      [sampleMismatchMsg ["B"], droppedSyndnaMsg 50 ["p1"]] = sm ++ fm ∧
      (∀ m ∈ sm, ∃ ids, m = sampleMismatchMsg ids) ∧
      (∀ m ∈ fm, ∃ ids, m = droppedSyndnaMsg 50 ids) :=
  fit_log_messages_ordered (fun _ => RegModel.mk 0 0 0 0 0 0)
    [SyndnaConcRow.mk "p1" 1]
    [SampleReadsRow.mk "A" 100 1, SampleReadsRow.mk "B" 100 1]
    (BiomTable.mk ["p1"] ["A"] (fun _ _ => 10)) 50
    [("A", RegModel.mk 0 0 0 0 0 0)]
    [sampleMismatchMsg ["B"], droppedSyndnaMsg 50 ["p1"]]
    (by
      simp only [fitLinearRegressionModels, validateSyndnaIdConsistency,
        validateIdConsistency, idsNotIn, totalFeatureReads]
      norm_num
      simp)

/-- C9 counterexample: the private helper
`_calc_copies_of_ogu_orf_ssrna_per_g_sample_from_dfs` does mutate its
caller-supplied metadata table in place — quant_orfs.py line 104 assigns
the sample-id column as the table's index, so a table whose index was
`["0"]` comes back with index `["A"]`. -/
theorem projection_helper_mutates_params_table :
    (calcCopiesInner ⟨[⟨"A", some 1, some 1, some 1, some 1⟩], ["0"]⟩
        ⟨["orf1"], ["A"], fun _ _ => 1⟩ [⟨"orf1", 1, 3, 3, 1⟩]).2
      ≠ ⟨[⟨"A", some 1, some 1, some 1, some 1⟩], ["0"]⟩ := by
  intro h
  have h2 := congrArg ParamsDf.index h
  simp [calcCopiesInner] at h2

/-- C9 (amended): the public projection entry point returns every
caller-supplied table (metadata, count matrix, coordinates) unchanged —
each of its transformations targets a fresh copy — while the private
helper's only in-place effect on its caller is overwriting the metadata
table's index with the sample-id column. -/
theorem pipeline_preserves_caller_tables (pdf : ParamsDf) (t : BiomTable)
    (coords : List CoordsRow) (cdf : List CopiesRow) :
    (calcCopiesOuterFull pdf t coords).2 = (pdf, t, coords) ∧
    (calcCopiesInner pdf t cdf).2 =
      { pdf with index := pdf.rows.map (fun r => r.sid) } :=
  ⟨rfl, rfl⟩

/-- When every matrix sample has a fully valid metadata row and every
matrix feature has a coordinates row, the full projection pipeline
succeeds with no log messages and the expected per-cell formula. -/
theorem calcCopiesOuterFull_ok (pdf : ParamsDf) (t : BiomTable)
    (coords : List CoordsRow)
    (hs : ∀ s ∈ t.samples, ∃ r, findRow pdf s = some r ∧ sampleRowOk r = true)
    (hf : ∀ f ∈ t.features,
      (atCopiesPerG (calcOguOrfCopiesPerGFromCoords coords) f).isSome) :
    (calcCopiesOuterFull pdf t coords).1 =
      Except.ok
        ({ features := t.features, samples := t.samples,
           data := fun f s =>
             t.data f s / (atTotalReads pdf s).getD 0
               * (atSsrnaMassG pdf s).getD 0
               * (atCopiesPerG (calcOguOrfCopiesPerGFromCoords coords) f).getD 0
               / (atAliquotMassG pdf s).getD 0 }, []) := by
  have hkeep : ∀ s ∈ t.samples,
      keepSample { rows := pdf.rows, index := pdf.rows.map (fun r => r.sid) } s
        = true := by
    intro s hsm
    obtain ⟨r, hr, hok⟩ := hs s hsm
    unfold keepSample
    have hr' : findRow
        { rows := pdf.rows, index := pdf.rows.map (fun r => r.sid) } s
        = some r := hr
    rw [hr']
    exact hok
  have hsam : t.samples.filter (fun s =>
      keepSample { rows := pdf.rows, index := pdf.rows.map (fun r => r.sid) } s)
      = t.samples :=
    List.filter_eq_self.mpr hkeep
  have hdrop : t.samples.filter (fun s =>
      !(keepSample { rows := pdf.rows, index := pdf.rows.map (fun r => r.sid) } s))
      = [] := by
    rw [List.filter_eq_nil_iff]
    intro s hsm
    simp [hkeep s hsm]
  have hcov : idsNotIn t.samples (pdf.rows.map (fun r => r.sid)) = [] := by
    unfold idsNotIn
    rw [List.filter_eq_nil_iff]
    intro s hsm
    obtain ⟨r, hr, -⟩ := hs s hsm
    have hr2 : pdf.rows.find? (fun rr => rr.sid == s) = some r := hr
    have h1 : r ∈ pdf.rows := List.mem_of_find?_eq_some hr2
    have h2 := List.find?_some hr2
    simp only [beq_iff_eq] at h2
    have hmem : s ∈ pdf.rows.map (fun r => r.sid) := by
      rw [← h2]
      exact List.mem_map_of_mem _ h1
    simp [hmem]
  have hval : ∃ v, validateIdConsistency (pdf.rows.map (fun r => r.sid))
      t.samples "sample info" "reads data" false = Except.ok v := by
    simp [validateIdConsistency, hcov]
  obtain ⟨v, hval⟩ := hval
  have hinner := calcCopiesInner_ok_cells
    ({ rows := pdf.rows, index := pdf.rows.map (fun r => r.sid) } : ParamsDf)
    (BiomTable.mk t.features
      (t.samples.filter (fun s =>
        keepSample { rows := pdf.rows, index := pdf.rows.map (fun r => r.sid) } s))
      t.data)
    (calcOguOrfCopiesPerGFromCoords coords)
    (by
      intro s hsm
      rw [hsam] at hsm
      obtain ⟨r, hr, -⟩ := hs s hsm
      have hr' : findRow
          { rows := pdf.rows, index := pdf.rows.map (fun r => r.sid) } s
          = some r := hr
      simp [hr'])
    (by
      intro f hfm
      exact hf f hfm)
  simp only [calcCopiesOuterFull, filterDataBySampleInfo]
  rw [hval]
  simp only []
  rw [hinner]
  simp only []
  rw [hdrop, hsam]
  rfl

/-- C10: the projection path validates only sample-id consistency; a
coordinates row whose feature id never occurs in the reads matrix is
simply ignored: the pipeline still succeeds, emits no error and no log
message, and produces the same output matrix as it does without that
extra row. -/
theorem projection_ignores_unknown_coords (pdf : ParamsDf) (t : BiomTable)
    (coords : List CoordsRow) (x : CoordsRow)
    (hs : ∀ s ∈ t.samples, ∃ r, findRow pdf s = some r ∧ sampleRowOk r = true)
    (hf : ∀ f ∈ t.features, ∃ c ∈ coords, c.oid = f)
    (_hx : x.oid ∉ t.features) :
    ∃ out1 out2 : BiomTable,
      (calcCopiesOuterFull pdf t (coords ++ [x])).1 = Except.ok (out1, []) ∧
      (calcCopiesOuterFull pdf t coords).1 = Except.ok (out2, []) ∧
      out1.features = out2.features ∧ out1.samples = out2.samples ∧
      ∀ f ∈ out1.features, ∀ s ∈ out1.samples, out1.data f s = out2.data f s := by
  have hfSmall : ∀ f ∈ t.features,
      (atCopiesPerG (calcOguOrfCopiesPerGFromCoords coords) f).isSome := by
    intro f hfm
    obtain ⟨c, hcmem, hcoid⟩ := hf f hfm
    unfold atCopiesPerG
    rw [Option.isSome_map']
    rw [List.find?_isSome]
    exact ⟨_, List.mem_map_of_mem _ hcmem, by simp [hcoid]⟩
  have hfBig : ∀ f ∈ t.features,
      (atCopiesPerG (calcOguOrfCopiesPerGFromCoords (coords ++ [x])) f).isSome := by
    intro f hfm
    obtain ⟨c, hcmem, hcoid⟩ := hf f hfm
    unfold atCopiesPerG
    rw [Option.isSome_map']
    rw [List.find?_isSome]
    exact ⟨_, List.mem_map_of_mem _ (List.mem_append_left _ hcmem),
      by simp [hcoid]⟩
  have h1 := calcCopiesOuterFull_ok pdf t (coords ++ [x]) hs hfBig
  have h2 := calcCopiesOuterFull_ok pdf t coords hs hfSmall
  refine ⟨_, _, h1, h2, rfl, rfl, ?_⟩
  intro f hfm s _
  have hfm' : f ∈ t.features := hfm
  have hcop : atCopiesPerG (calcOguOrfCopiesPerGFromCoords (coords ++ [x])) f
      = atCopiesPerG (calcOguOrfCopiesPerGFromCoords coords) f := by
    have hsome := hfSmall f hfm'
    unfold atCopiesPerG at hsome ⊢
    rw [Option.isSome_map'] at hsome
    unfold calcOguOrfCopiesPerGFromCoords at hsome ⊢
    rw [List.map_append, List.find?_append]
    cases hfind : (coords.map (fun r =>
        let rawLen := r.endPos - r.startPos
        let absLen := |rawLen|
        let lenVal := absLen + 1
        CopiesRow.mk r.oid r.startPos r.endPos lenVal
          (calcCopiesGenomicElementPerG (lenVal : ℚ) RNA_BASE_G_PER_MOLE))).find?
        (fun r => r.oid == f) with
    | some y => simp [Option.or]
    | none => rw [hfind] at hsome; simp at hsome
  show t.data f s / (atTotalReads pdf s).getD 0
      * (atSsrnaMassG pdf s).getD 0
      * (atCopiesPerG (calcOguOrfCopiesPerGFromCoords (coords ++ [x])) f).getD 0
      / (atAliquotMassG pdf s).getD 0
    = t.data f s / (atTotalReads pdf s).getD 0
      * (atSsrnaMassG pdf s).getD 0
      * (atCopiesPerG (calcOguOrfCopiesPerGFromCoords coords) f).getD 0
      / (atAliquotMassG pdf s).getD 0
  rw [hcop]

/-- Witness for C10: the extra coordinates row "ghost" is absent from
the 1×1 reads matrix; the pipeline succeeds, logs nothing, and the cell
agrees with the run without the extra row. -/
theorem projection_ignores_unknown_coords_witness :
    ∃ out1 out2 : BiomTable,
      (calcCopiesOuterFull ⟨[⟨"A", some 2, some 5, some 7, some 3⟩], ["0"]⟩
          ⟨["orf1"], ["A"], fun _ _ => 6⟩
          ([⟨"orf1", 1, 3⟩] ++ [⟨"ghost", 5, 9⟩])).1 = Except.ok (out1, []) ∧
      (calcCopiesOuterFull ⟨[⟨"A", some 2, some 5, some 7, some 3⟩], ["0"]⟩
          ⟨["orf1"], ["A"], fun _ _ => 6⟩
          [⟨"orf1", 1, 3⟩]).1 = Except.ok (out2, []) ∧
      out1.features = out2.features ∧ out1.samples = out2.samples ∧
      ∀ f ∈ out1.features, ∀ s ∈ out1.samples, out1.data f s = out2.data f s :=
  projection_ignores_unknown_coords
    ⟨[⟨"A", some 2, some 5, some 7, some 3⟩], ["0"]⟩
    ⟨["orf1"], ["A"], fun _ _ => 6⟩
    [⟨"orf1", 1, 3⟩] ⟨"ghost", 5, 9⟩
    (by
      intro s hsm
      simp at hsm
      subst hsm
      exact ⟨⟨"A", some 2, some 5, some 7, some 3⟩, rfl, rfl⟩)
    (by
      intro f hfm
      simp at hfm
      subst hfm
      exact ⟨⟨"orf1", 1, 3⟩, by simp, rfl⟩)
    (by simp)

end PySyndna
